import Mathlib

/-!
Verification development for the Confluence Label Lifecycle Manager
(`src/main.py`).

The program classifies wiki pages as fresh/stale/rotten from their
last-edit age, reconciles each page's labels toward the phase label,
honours `lifecycle_ignore` directives, and tallies the result.

Shallow embedding conventions:
* Timestamps are `Int` microseconds (Python `datetime` compares with
  microsecond precision; `timedelta(days=n)` is `n * 86400000000` µs).
  The two `datetime.now()` calls in `discover_page_state` are modelled
  as a single instant `now` passed as a parameter.
* The external document store (`client`) is modelled by explicit data:
  a space is the number `total` of pages it holds (summaries are their
  indices), a page's label list is a `List String`, and the fallibility
  of label mutations is an oracle `ApiBehavior` telling which
  `remove_page_label` / `set_page_label` calls raise `ApiError`/`HTTPError`.
* `dateutil.parser.parse` is an oracle `String → Option Int`
  (`none` models `ParserError`).
* Fallible code returns `Except Unit`; an uncaught Python exception is
  `.error ()`.
-/

/-- Microseconds in one day: `timedelta(days=1)` at `datetime` precision. -/
def usPerDay : Int := 86400000000

/-- The global `target_labels` list (`main.py` line 38, filled at line 520
from the three CLI label arguments).  The source keeps it as an
order-significant three-element list; we name the slots. -/
structure TargetLabels where
  fresh : String
  stale : String
  rotten : String
deriving DecidableEq

/-- `target_labels` as the ordered list `[fresh, stale, rotten]` the source
indexes as `target_labels[0] / [1] / [2]`. -/
def TargetLabels.list (tl : TargetLabels) : List String :=
  [tl.fresh, tl.stale, tl.rotten]

/-- `deprecated_labels` (main.py lines 27-31). -/
def deprecated_labels : List String := ["fresh", "stale", "rotten"]

/-- `lifecycle_ignore_tag` (main.py line 44). -/
def lifecycle_ignore_tag : String := "lifecycle_ignore"

/-- The default target labels from the CLI defaults
(`--freshlabel` / `--stalelabel` / `--rottenlabel`, main.py lines 504-506). -/
def defaultTargetLabels : TargetLabels :=
  ⟨"lifecycle_phase=fresh", "lifecycle_phase=stale", "lifecycle_phase=rotten"⟩

/-! ### Page discovery (`discover_all_pages_in_space`, main.py lines 46-78) -/

/-- One `client.get_all_pages_from_space(space, start=start, limit=limit)`
call against a space holding `total` pages: the slice of page summaries
(modelled by their indices) from `start`, at most `limit` of them. -/
def get_all_pages_from_space (total start limit : Nat) : List Nat :=
  ((List.range total).drop start).take limit

/-- The `while count < max` pagination loop of
`discover_all_pages_in_space` (main.py lines 64-76), entered with the
loop condition already known to hold.  Returns the accumulated page
summaries together with the list of `(start, limit)` request parameters
of every API call issued.  `fuel` only bounds the recursion: each
iteration either fetches zero pages and stops, or advances `start` by
`limit ≥ 1`, so any `fuel > total` is enough (the caller passes
`total + 2`). -/
def discoverLoop (total limit maxp : Nat) : Nat → Nat → List Nat × List (Nat × Nat)
  | 0, _ => ([], [])
  | fuel + 1, start =>
    let fetched := get_all_pages_from_space total start limit
    let count := fetched.length
    if count = 0 then ([], [(start, limit)])
    else if count < maxp then
      let rest := discoverLoop total limit maxp fuel (start + limit)
      (fetched ++ rest.1, (start, limit) :: rest.2)
    else (fetched, [(start, limit)])

/-- `discover_all_pages_in_space(space, max, limit)` (main.py lines 46-78)
against a space of `total` pages.  Clamps `limit` to `maxp` when it is
bigger (lines 60-62), then runs the pagination loop; the loop body runs
at least once only when `0 < maxp` (`count` starts at `0`).
Returns the page summaries and the issued API requests. -/
def discover_all_pages_in_space (total maxp limit : Nat) : List Nat × List (Nat × Nat) :=
  let lim := if limit > maxp then maxp else limit
  if 0 < maxp then discoverLoop total lim maxp (total + 2) 0 else ([], [])

/-! ### State classification (`discover_page_state`, main.py lines 106-187) -/

/-- The lifecycle-phase computation of `discover_page_state`
(main.py lines 149-178).  `last_update` is the page's parsed
last-modified timestamp, `now` the instant `datetime.now()` returns.
The function's other outputs (creator / last-editor metadata) are
passed through unchanged by the source and play no part in any claim,
so the model returns just the computed `state` string:

    state = target_labels[0]
    if last_update < now - timedelta(days=rotten_days): state = target_labels[2]
    elif last_update < now - timedelta(days=stale_days): state = target_labels[1]
-/
def discover_page_state (tl : TargetLabels) (now last_update : Int)
    (rotten_days stale_days : Nat) : String :=
  let date_rotten := now - (rotten_days : Int) * usPerDay
  let date_stale := now - (stale_days : Int) * usPerDay
  if last_update < date_rotten then tl.rotten
  else if last_update < date_stale then tl.stale
  else tl.fresh

/-! ### Label reconciliation (`action_set_page_label`, main.py lines 189-284) -/

/-- Which label mutations the document store rejects: `removeFails l`
(resp. `setFails l`) is `true` when `client.remove_page_label(page, l)`
(resp. `client.set_page_label(page, l)`) raises `ApiError`/`HTTPError`. -/
structure ApiBehavior where
  removeFails : String → Bool
  setFails : String → Bool

/-- The always-succeeding document store. -/
def apiOk : ApiBehavior := ⟨fun _ => false, fun _ => false⟩

/-- Python's `s.split("=")` on the character list of a label: splits at
every `'='`, keeping empty pieces (`"".split("=") == [""]`,
`"a=".split("=") == ["a", ""]`). -/
def splitEq : List Char → List (List Char)
  | [] => [[]]
  | c :: rest =>
    let r := splitEq rest
    if c = '=' then [] :: r
    else
      match r with
      | [] => [[c]]
      | h :: t => (c :: h) :: t

/-- `current_label.split("=")` as a list of strings. -/
def splitEqS (l : String) : List String :=
  (splitEq l.toList).map fun cs => ⟨cs⟩

/-- `current_label.count('=')` (Python counts occurrences of the
one-character substring). -/
def eqCount (l : String) : Nat := l.toList.count '='

/-- `current_label.startswith(lifecycle_ignore_tag)` (main.py line 221). -/
def startsWithTag (l : String) : Bool :=
  lifecycle_ignore_tag.toList.isPrefixOf l.toList

/-- A sequence of `client.remove_page_label` calls, each of which may
raise (modelling a removal outside any `try`); returns the labels
removed. -/
def removeCalls (api : ApiBehavior) : List String → Except Unit (List String)
  | [] => .ok []
  | l :: rest =>
    if api.removeFails l then .error ()
    else
      match removeCalls api rest with
      | .error e => .error e
      | .ok r => .ok (l :: r)

/-- The deprecated-label sweep of `action_set_page_label`
(main.py lines 200-206): for every current label, for every entry of
`deprecated_labels` equal to it, call `client.remove_page_label` —
with no `try`/`except`, so an API error propagates.  Returns the list
of removed labels. -/
def removeDeprecated (api : ApiBehavior) : List String → Except Unit (List String)
  | [] => .ok []
  | l :: rest =>
    match removeCalls api (deprecated_labels.filter fun d => d == l) with
    | .error e => .error e
    | .ok here =>
      match removeDeprecated api rest with
      | .error e => .error e
      | .ok r => .ok (here ++ r)

/-- Whether the lifecycle-ignore branch of the label scan
(main.py lines 221-250) breaks out of the loop for label `l`, i.e.
marks the page suppressed: `l` starts with `lifecycle_ignore` and
either has no `=`, or an empty value after `=`, or a value that
parses (`pd`) to a date not before `now`
(`if not datetime.now() > parse(split[1])`).  A `ParserError`
(`pd _ = none`) falls through (`pass`). -/
def ignoreDirectiveBreaks (pd : String → Option Int) (now : Int) (l : String) : Bool :=
  if startsWithTag l then
    if eqCount l = 0 then true
    else
      let s1 := (splitEqS l).getD 1 ""
      if s1 = "" then true
      else
        match pd s1 with
        | some d => !(now > d)
        | none => false
  else false

/-- How the label scan of `action_set_page_label` ended. -/
inductive ScanResult where
  /-- Broke out with `triggered_lifecycle_exception = True` (ignore directive). -/
  | suppress
  /-- Broke out because the desired label is already present. -/
  | found
  /-- Exhausted the labels with `labelling_required` still `True`. -/
  | done
deriving DecidableEq

/-- The `for existing_label in existing_labels['results']` scan of
`action_set_page_label` (main.py lines 217-264).  `labelling_required`
is `True` throughout the loop body (both assignments to `False` are
immediately followed by `break`), so the two `if labelling_required
and ...` guards always pass.  Returns how the scan ended and the
undesirable labels successfully removed along the way; a removal that
raises is swallowed and `continue`s (skipping the desired-label check
of that iteration). -/
def scanLabels (api : ApiBehavior) (pd : String → Option Int) (now : Int)
    (undesirable : List String) (desired : String) :
    List String → ScanResult × List String
  | [] => (.done, [])
  | l :: rest =>
    if ignoreDirectiveBreaks pd now l then (.suppress, [])
    else if l ∈ undesirable then
      if api.removeFails l then scanLabels api pd now undesirable desired rest
      else if l = desired then (.found, [l])
      else
        let r := scanLabels api pd now undesirable desired rest
        (r.1, l :: r.2)
    else if l = desired then (.found, [])
    else scanLabels api pd now undesirable desired rest

/-- Outcome of `action_set_page_label`: the returned pair
`(changed, lifecycle_trigger)` plus the trace of label mutations the
call issued against the store (removals from both sweeps, in order,
and the label added by `client.set_page_label`, if any). -/
structure ActionResult where
  changed : Bool
  suppressed : Bool
  removed : List String
  added : List String
deriving DecidableEq

/-- `action_set_page_label(page_id, desired_label)` (main.py lines
189-284) on a page whose `client.get_page_labels` results are
`labels`.  First the unguarded deprecated sweep (lines 200-206, an API
error propagates as `.error`), then the scan (lines 214-264), then:
if labelling is still required, `client.set_page_label` inside
`try`/`except` — failure returns `(False, False)`, success
`(True, False)`; a suppressed scan returns `(False, True)`, a
found-desired scan `(False, False)` (lines 266-284). -/
def action_set_page_label (tl : TargetLabels) (api : ApiBehavior)
    (pd : String → Option Int) (now : Int)
    (labels : List String) (desired : String) : Except Unit ActionResult :=
  match removeDeprecated api labels with
  | .error e => .error e
  | .ok depRemoved =>
    let undesirable := tl.list.filter fun x => x != desired
    let scanned := scanLabels api pd now undesirable desired labels
    match scanned.1 with
    | .done =>
      if api.setFails desired then .ok ⟨false, false, depRemoved ++ scanned.2, []⟩
      else .ok ⟨true, false, depRemoved ++ scanned.2, [desired]⟩
    | .suppress => .ok ⟨false, true, depRemoved ++ scanned.2, []⟩
    | .found => .ok ⟨false, false, depRemoved ++ scanned.2, []⟩

/-! ### Run orchestration (`manage_pages_in_space`, main.py lines 297-484) -/

/-- The snapshot of one discovered page as the orchestrator reads it
from the store: its id, the parsed last-modified timestamp
`client.history` yields to `discover_page_state`, and the label list
`client.get_page_labels` yields to `action_set_page_label`. -/
structure PageSnapshot where
  id : String
  last_update : Int
  labels : List String
deriving DecidableEq

/-- A mutation call issued against the document store. -/
inductive Mutation where
  | removeLabel (page label : String)
  | addLabel (page label : String)
  | attachFile (page file : String)
  | updatePage (page : String)
deriving DecidableEq

/-- The per-phase tallies the orchestrator computes
(main.py lines 351-354): `fresh_pages`, `stale_pages`, `rotten_pages`,
`total_pages_managed = fresh + stale + rotten`. -/
structure Tallies where
  fresh : Nat
  stale : Nat
  rotten : Nat
  total : Nat
deriving DecidableEq

/-- The CLI arguments `manage_pages_in_space` consults (besides the
space/credentials, which the snapshot replaces): `--rotten`, `--stale`,
`--readonly`, `--updatepage`, `--pageid`. -/
structure Args where
  rotten : Nat
  stale : Nat
  readonly : Bool
  updatepage : Bool
  pageid : String

/-- One `for page in all_<phase>_pages:` reconciliation loop
(main.py lines 327-349) over `pages` with the phase's target label
`desired`: calls `action_set_page_label` sequentially, tagging its
mutations with each page's id.  An error from a call propagates
(nothing in `manage_pages_in_space` catches it). -/
def reconcileList (tl : TargetLabels) (api : ApiBehavior)
    (pd : String → Option Int) (now : Int) (desired : String) :
    List PageSnapshot → Except Unit (List Mutation)
  | [] => .ok []
  | p :: rest =>
    match action_set_page_label tl api pd now p.labels desired with
    | .error e => .error e
    | .ok r =>
      match reconcileList tl api pd now desired rest with
      | .error e => .error e
      | .ok ms =>
        .ok (r.removed.map (Mutation.removeLabel p.id) ++
             r.added.map (Mutation.addLabel p.id) ++ ms)

/-- The classification and bucket lengths of `manage_pages_in_space`
(main.py lines 302-314 and 351-354), as a pure function of the
snapshot: classify every page (the thread pool runs
`discover_page_state` over the same inputs the sequential model uses;
the join barrier makes the bucket partition order-independent),
partition by `state == target_labels[k]`, and take the three bucket
lengths and their sum. -/
def phaseTallies (tl : TargetLabels) (now : Int) (rotten_days stale_days : Nat)
    (pages : List PageSnapshot) : Tallies :=
  let states := pages.map fun p =>
    (p, discover_page_state tl now p.last_update rotten_days stale_days)
  let all_rotten := (states.filter fun x => x.2 == tl.rotten).map Prod.fst
  let all_stale := (states.filter fun x => x.2 == tl.stale).map Prod.fst
  let all_fresh := (states.filter fun x => x.2 == tl.fresh).map Prod.fst
  ⟨all_fresh.length, all_stale.length, all_rotten.length,
   all_fresh.length + all_stale.length + all_rotten.length⟩

/-- `manage_pages_in_space(arguments)` (main.py lines 297-484) on the
snapshot `pages` of the space: classify and partition (lines 302-314);
unless `--readonly`, reconcile the rotten, stale and fresh buckets in
that order (lines 317-349); compute the tallies (lines 351-354); and,
when `not readonly and updatepage`, render and attach the chart, update
the report page and re-tag it `lifecycle_ignore` (lines 366-484).
Returns the tallies and the full mutation trace.  The per-phase
`*_updated` / `*_lifecycle_triggers` counters feed only the report
page's body text, which the `updatePage` mutation abstracts. -/
def manage_pages_in_space (tl : TargetLabels) (api : ApiBehavior)
    (pd : String → Option Int) (now : Int) (args : Args)
    (pages : List PageSnapshot) : Except Unit (Tallies × List Mutation) :=
  let states := pages.map fun p =>
    (p, discover_page_state tl now p.last_update args.rotten args.stale)
  let all_rotten := (states.filter fun x => x.2 == tl.rotten).map Prod.fst
  let all_stale := (states.filter fun x => x.2 == tl.stale).map Prod.fst
  let all_fresh := (states.filter fun x => x.2 == tl.fresh).map Prod.fst
  let labelMuts : Except Unit (List Mutation) :=
    if args.readonly then .ok []
    else
      match reconcileList tl api pd now tl.rotten all_rotten with
      | .error e => .error e
      | .ok m1 =>
        match reconcileList tl api pd now tl.stale all_stale with
        | .error e => .error e
        | .ok m2 =>
          match reconcileList tl api pd now tl.fresh all_fresh with
          | .error e => .error e
          | .ok m3 => .ok (m1 ++ m2 ++ m3)
  match labelMuts with
  | .error e => .error e
  | .ok muts =>
    let fresh_pages := all_fresh.length
    let stale_pages := all_stale.length
    let rotten_pages := all_rotten.length
    let total_pages_managed := fresh_pages + stale_pages + rotten_pages
    let reportMuts : List Mutation :=
      if ¬ args.readonly ∧ args.updatepage then
        [.attachFile args.pageid "pie.png", .updatePage args.pageid,
         .addLabel args.pageid "lifecycle_ignore"]
      else []
    .ok (⟨fresh_pages, stale_pages, rotten_pages, total_pages_managed⟩,
         muts ++ reportMuts)

/-! ### Helper lemmas -/

/-- A label that merely fails to start with the ignore tag never breaks the
scan. -/
lemma not_breaks_of_not_tag (pd : String → Option Int) (now : Int) (l : String)
    (h : startsWithTag l = false) : ignoreDirectiveBreaks pd now l = false := by
  simp [ignoreDirectiveBreaks, h]

/-- A label starting with the ignore tag is never one of the three
deprecated labels. -/
lemma not_deprecated_of_tag (dir : String) (h : startsWithTag dir = true) :
    dir ∉ deprecated_labels := by
  intro hmem
  simp only [deprecated_labels, List.mem_cons, List.not_mem_nil, or_false] at hmem
  rcases hmem with h' | h' | h' <;> subst h' <;> exact absurd h (by decide)

/-- The inner `for deprecated in deprecated_labels` loop matches at most
once: its matches are `[l]` exactly when `l` is deprecated. -/
lemma dep_filter_eq (l : String) :
    deprecated_labels.filter (fun d => d == l) =
      if l ∈ deprecated_labels then [l] else [] := by
  by_cases h : l ∈ deprecated_labels
  · rw [if_pos h]
    simp only [deprecated_labels, List.mem_cons, List.not_mem_nil, or_false] at h
    rcases h with h | h | h <;> subst h <;> decide
  · rw [if_neg h]
    simp only [deprecated_labels, List.mem_cons, List.not_mem_nil, or_false,
      not_or] at h
    obtain ⟨h1, h2, h3⟩ := h
    have e1 : ("fresh" == l) = false := beq_eq_false_iff_ne.mpr fun hh => h1 hh.symm
    have e2 : ("stale" == l) = false := beq_eq_false_iff_ne.mpr fun hh => h2 hh.symm
    have e3 : ("rotten" == l) = false := beq_eq_false_iff_ne.mpr fun hh => h3 hh.symm
    simp [deprecated_labels, List.filter, e1, e2, e3]

/-- When no deprecated label on the page makes `remove_page_label` raise,
the deprecated sweep succeeds and removes exactly the deprecated labels,
in page order. -/
lemma removeDeprecated_ok (api : ApiBehavior) :
    ∀ labels : List String,
      (∀ l ∈ labels, l ∈ deprecated_labels → api.removeFails l = false) →
      removeDeprecated api labels =
        .ok (labels.filter fun l => l ∈ deprecated_labels) := by
  intro labels
  induction labels with
  | nil => intro _; rfl
  | cons l rest ih =>
    intro h
    have hr := ih fun x hx => h x (List.mem_cons_of_mem _ hx)
    simp only [removeDeprecated, dep_filter_eq]
    by_cases hm : l ∈ deprecated_labels
    · have hok : api.removeFails l = false := h l (List.mem_cons_self l rest) hm
      rw [if_pos hm]
      simp [removeCalls, hok, hr, List.filter_cons, hm]
    · rw [if_neg hm]
      simp [removeCalls, hr, List.filter_cons, hm]

/-- If the desired label does not occur before `dir` and `dir` breaks the
scan, the scan ends suppressed: every earlier label either also breaks
(still suppressed), or is removed / skipped and the scan moves on. -/
lemma scan_suppress (api : ApiBehavior) (pd : String → Option Int) (now : Int)
    (undes : List String) (desired dir : String) (post : List String)
    (hb : ignoreDirectiveBreaks pd now dir = true) :
    ∀ pre : List String, desired ∉ pre →
      (scanLabels api pd now undes desired (pre ++ dir :: post)).1 =
        ScanResult.suppress := by
  intro pre
  induction pre with
  | nil => intro _; simp [scanLabels, hb]
  | cons l pre ih =>
    intro hpre
    have hld : ¬ (l = desired) := fun h => hpre (by simp [h])
    have hpre' : desired ∉ pre := fun h => hpre (List.mem_cons_of_mem _ h)
    have ih' := ih hpre'
    simp only [List.cons_append, scanLabels]
    by_cases h1 : ignoreDirectiveBreaks pd now l
    · simp [h1]
    · simp only [h1, Bool.false_eq_true, if_false]
      by_cases h2 : l ∈ undes
      · rw [if_pos h2]
        by_cases h3 : api.removeFails l
        · simp [h3, ih']
        · simp [h3, hld, ih']
      · rw [if_neg h2, if_neg hld]
        exact ih'

/-- A page already carrying the desired label, no label of which starts
with the ignore tag or is undesirable, scans to `found` with no
removals. -/
lemma scan_found (api : ApiBehavior) (pd : String → Option Int) (now : Int)
    (undes : List String) (desired : String) :
    ∀ labels : List String, desired ∈ labels →
      (∀ l ∈ labels, startsWithTag l = false) →
      (∀ l ∈ labels, l ∉ undes) →
      scanLabels api pd now undes desired labels = (ScanResult.found, []) := by
  intro labels
  induction labels with
  | nil => intro h; simp at h
  | cons l rest ih =>
    intro hmem hign hund
    have hb : ignoreDirectiveBreaks pd now l = false :=
      not_breaks_of_not_tag pd now l (hign l (List.mem_cons_self l rest))
    simp only [scanLabels, hb, Bool.false_eq_true, if_false]
    rw [if_neg (hund l (List.mem_cons_self l rest))]
    by_cases hld : l = desired
    · rw [if_pos hld]
    · rw [if_neg hld]
      have hmem' : desired ∈ rest := by
        rcases List.mem_cons.mp hmem with h | h
        · exact absurd h.symm hld
        · exact h
      exact ih hmem' (fun x hx => hign x (List.mem_cons_of_mem _ hx))
        (fun x hx => hund x (List.mem_cons_of_mem _ hx))

/-- A label the ignore branch falls through, that is neither undesirable
nor the desired label, leaves the scan unchanged: it can be deleted from
the page's label list. -/
lemma scanLabels_skip (api : ApiBehavior) (pd : String → Option Int) (now : Int)
    (undes : List String) (desired dir : String) (post : List String)
    (hb : ignoreDirectiveBreaks pd now dir = false)
    (hund : dir ∉ undes) (hdes : ¬ (dir = desired)) :
    ∀ pre : List String,
      scanLabels api pd now undes desired (pre ++ dir :: post) =
        scanLabels api pd now undes desired (pre ++ post) := by
  intro pre
  induction pre with
  | nil =>
    simp only [List.nil_append, scanLabels, hb, Bool.false_eq_true, if_false]
    rw [if_neg hund, if_neg hdes]
  | cons l pre ih => simp only [List.cons_append, scanLabels, List.append_eq, ih]

/-- A non-deprecated label is invisible to the deprecated sweep. -/
lemma removeDeprecated_skip (api : ApiBehavior) (dir : String)
    (hdep : dir ∉ deprecated_labels) :
    ∀ pre post : List String,
      removeDeprecated api (pre ++ dir :: post) =
        removeDeprecated api (pre ++ post) := by
  intro pre post
  induction pre with
  | nil =>
    simp only [List.nil_append, removeDeprecated, dep_filter_eq, if_neg hdep,
      removeCalls]
    cases h : removeDeprecated api post <;> simp [h]
  | cons l pre ih =>
    simp only [List.cons_append, removeDeprecated, List.append_eq, ih]

/-- An ignore directive the scan falls through (expired or unparsable
date), when it is not itself a target or desired label, leaves the whole
reconciliation unchanged. -/
lemma action_skip (tl : TargetLabels) (api : ApiBehavior)
    (pd : String → Option Int) (now : Int) (desired dir : String)
    (hb : ignoreDirectiveBreaks pd now dir = false)
    (hund : dir ∉ tl.list) (hdes : ¬ (dir = desired))
    (hsw : startsWithTag dir = true) :
    ∀ pre post : List String,
      action_set_page_label tl api pd now (pre ++ dir :: post) desired =
        action_set_page_label tl api pd now (pre ++ post) desired := by
  intro pre post
  have hdepm : dir ∉ deprecated_labels := not_deprecated_of_tag dir hsw
  have hu : dir ∉ tl.list.filter (fun x => x != desired) := fun hmem =>
    hund (List.mem_of_mem_filter hmem)
  simp only [action_set_page_label, removeDeprecated_skip api dir hdepm pre post,
    scanLabels_skip api pd now _ desired dir post hb hu hdes pre]

/-- Any label that breaks the scan, placed after a desired-free prefix,
drives `action_set_page_label` to the suppressed outcome, with every
deprecated label still removed. -/
lemma action_suppress_of_breaks (tl : TargetLabels) (api : ApiBehavior)
    (pd : String → Option Int) (now : Int) (desired dir : String)
    (pre post : List String)
    (hb : ignoreDirectiveBreaks pd now dir = true)
    (hpre : desired ∉ pre)
    (hdep : ∀ l ∈ pre ++ dir :: post, l ∈ deprecated_labels →
      api.removeFails l = false) :
    ∃ r, action_set_page_label tl api pd now (pre ++ dir :: post) desired = .ok r ∧
      r.changed = false ∧ r.suppressed = true ∧
      ∀ l ∈ pre ++ dir :: post, l ∈ deprecated_labels → l ∈ r.removed := by
  have hsc := scan_suppress api pd now (tl.list.filter fun x => x != desired)
    desired dir post hb pre hpre
  have hrd := removeDeprecated_ok api (pre ++ dir :: post) hdep
  refine ⟨⟨false, true,
    ((pre ++ dir :: post).filter fun l => l ∈ deprecated_labels) ++
      (scanLabels api pd now (tl.list.filter fun x => x != desired) desired
        (pre ++ dir :: post)).2, []⟩, ?_, rfl, rfl, ?_⟩
  · simp only [action_set_page_label, hrd, hsc]
  · intro l hl hld
    exact List.mem_append_left _ (List.mem_filter.mpr ⟨hl, by simp [hld]⟩)

/-- `discover_page_state` always answers one of the three target labels. -/
lemma discover_page_state_mem (tl : TargetLabels) (now lu : Int) (rd sd : Nat) :
    discover_page_state tl now lu rd sd = tl.rotten ∨
    discover_page_state tl now lu rd sd = tl.stale ∨
    discover_page_state tl now lu rd sd = tl.fresh := by
  simp only [discover_page_state]
  split_ifs <;> simp

/-- Three filters whose predicates hold exactly once per element
partition a list by length. -/
lemma three_filter_length {α : Type} (p q r : α → Bool) :
    ∀ l : List α,
      (∀ a ∈ l, ((if p a then 1 else 0) + (if q a then 1 else 0) +
        (if r a then 1 else 0) : Nat) = 1) →
      (l.filter p).length + (l.filter q).length + (l.filter r).length =
        l.length := by
  intro l
  induction l with
  | nil => intro _; rfl
  | cons a l ih =>
    intro h
    have ha := h a (List.mem_cons_self a l)
    have ht := ih fun x hx => h x (List.mem_cons_of_mem _ hx)
    cases hp : p a <;> cases hq : q a <;> cases hr : r a <;>
      simp only [hp, hq, hr, List.filter_cons, if_true, if_false,
        Bool.false_eq_true, Bool.true_eq_false, ite_true, ite_false,
        List.length_cons] at ha ht ⊢ <;> omega

/-- The tallies of a successful `manage_pages_in_space` run are the pure
classification tallies of the snapshot. -/
lemma manage_ok_tallies (tl : TargetLabels) (api : ApiBehavior)
    (pd : String → Option Int) (now : Int) (args : Args)
    (pages : List PageSnapshot) (t : Tallies) (muts : List Mutation)
    (h : manage_pages_in_space tl api pd now args pages = .ok (t, muts)) :
    t = phaseTallies tl now args.rotten args.stale pages := by
  simp only [manage_pages_in_space] at h
  split at h
  · exact absurd h (by simp)
  · rw [Except.ok.injEq, Prod.mk.injEq] at h
    rw [← h.1]
    rfl

/-- The spec §8 worked example: a stale-beyond-rotten page whose labels are
the fresh phase label plus the deprecated tag `"fresh"`, reconciled toward
rotten: both are removed, the rotten label is applied, outcome changed. -/
lemma spec_example_rotten_page :
    action_set_page_label defaultTargetLabels apiOk (fun _ => none) 0
      ["lifecycle_phase=fresh", "fresh"] "lifecycle_phase=rotten" =
      .ok ⟨true, false, ["fresh", "lifecycle_phase=fresh"],
        ["lifecycle_phase=rotten"]⟩ := by
  rfl

/-- A date-parsing oracle for concrete runs: `"29990101"` is a far-future
instant, `"19700101"` the epoch, everything else a `ParserError`. -/
def pdTest : String → Option Int := fun s =>
  if s = "29990101" then some 64060588800000000
  else if s = "19700101" then some 0
  else none

/-- A store on which every `remove_page_label` call raises. -/
def apiRemFail : ApiBehavior := ⟨fun _ => true, fun _ => false⟩

/-- A store on which every `set_page_label` call raises. -/
def apiSetFail : ApiBehavior := ⟨fun _ => false, fun _ => true⟩

/-! ### The claims -/

/-- **C1** (corrected).  The phase computed by `discover_page_state` from
`age = now - last_update`, for `stale_days ≤ rotten_days`, is: `fresh`
when `age ≤ stale_days` (in particular at `age == stale_days`, the claim
said stale there), `stale` when `stale_days < age ≤ rotten_days` (in
particular at `age == rotten_days`, the claim said rotten there), and
`rotten` only when `age > rotten_days`: the strict `<` comparisons of
main.py lines 177-178 send boundary ages to the *less* severe bucket. -/
theorem state_thresholds (tl : TargetLabels) (now last_update : Int)
    (rotten_days stale_days : Nat) (hle : stale_days ≤ rotten_days) :
    (now - last_update ≤ (stale_days : Int) * usPerDay →
      discover_page_state tl now last_update rotten_days stale_days = tl.fresh) ∧
    ((stale_days : Int) * usPerDay < now - last_update ∧
        now - last_update ≤ (rotten_days : Int) * usPerDay →
      discover_page_state tl now last_update rotten_days stale_days = tl.stale) ∧
    ((rotten_days : Int) * usPerDay < now - last_update →
      discover_page_state tl now last_update rotten_days stale_days = tl.rotten) := by
  simp only [discover_page_state, usPerDay]
  have hc : (stale_days : Int) * 86400000000 ≤ (rotten_days : Int) * 86400000000 := by
    have : (stale_days : Int) ≤ (rotten_days : Int) := by exact_mod_cast hle
    omega
  refine ⟨fun h => ?_, fun h => ?_, fun h => ?_⟩ <;>
    split_ifs with h1 h2 <;> first | rfl | (exfalso; omega)

/-- **C1 counterexample**: at `age` exactly `stale_days` days (90 days,
thresholds 90/180) the code classifies the page `fresh`, not `stale` as
the claim's boundary case states. -/
theorem state_boundary_counterexample :
    discover_page_state defaultTargetLabels 0 (-(90 * usPerDay)) 180 90 =
        "lifecycle_phase=fresh" ∧
      discover_page_state defaultTargetLabels 0 (-(90 * usPerDay)) 180 90 ≠
        "lifecycle_phase=stale" := by
  constructor <;> decide

/-- **C1 witness**: the corrected thresholds at thresholds 90/180, a page
100 days old (stale) and a page 200 days old (rotten). -/
theorem state_thresholds_witness :
    ((0 : Int) - -(100 * usPerDay) ≤ (90 : Int) * usPerDay →
      discover_page_state defaultTargetLabels 0 (-(100 * usPerDay)) 180 90 =
        defaultTargetLabels.fresh) ∧
    ((90 : Int) * usPerDay < (0 : Int) - -(100 * usPerDay) ∧
        (0 : Int) - -(100 * usPerDay) ≤ (180 : Int) * usPerDay →
      discover_page_state defaultTargetLabels 0 (-(100 * usPerDay)) 180 90 =
        defaultTargetLabels.stale) ∧
    ((180 : Int) * usPerDay < (0 : Int) - -(100 * usPerDay) →
      discover_page_state defaultTargetLabels 0 (-(100 * usPerDay)) 180 90 =
        defaultTargetLabels.rotten) := by
  have h := state_thresholds defaultTargetLabels 0 (-(100 * usPerDay)) 180 90
    (by decide)
  exact_mod_cast h

/-- **C2** (code bug).  Against a space of 3 pages with `max = 2` and
`limit = 1`, `discover_all_pages_in_space` accumulates all 3 page
summaries — more than `max` — over 4 API calls: the `while count < max`
guard (main.py line 65) compares the *last call's* result count, never
the running total, to `max`, contradicting the docstring's "to a max
number of pages" / "the maximum numbers of pages to manage". -/
theorem discover_exceeds_max :
    discover_all_pages_in_space 3 2 1 =
        ([0, 1, 2], [(0, 1), (1, 1), (2, 1), (3, 1)]) ∧
      (discover_all_pages_in_space 3 2 1).1.length = 3 := by
  constructor <;> decide

/-- **C3 counterexample**: discovery over a 30-page space with `max = 50`,
`limit = 500` issues two API calls, not the single call the claim
states — the second, empty, call is how the loop detects the end of the
space. -/
theorem discover_two_calls_counterexample :
    ¬ ((discover_all_pages_in_space 30 50 500).2.length = 1) := by
  decide

/-- **C3** (corrected).  With `max = 50` and `limit = 500` the per-call
limit is clamped to 50 (both issued requests carry limit 50), and a
30-page space yields exactly 30 page summaries; all 30 arrive in the
first call, and a second call returning zero results terminates the
pagination, for exactly two API calls in total. -/
theorem discover_clamps_limit :
    discover_all_pages_in_space 30 50 500 =
      (List.range 30, [(0, 50), (50, 50)]) := by
  decide

/-- **C4 counterexample**: a page whose labels are the desired label
followed by the bare ignore-forever directive yields `(False, False)` —
no change but *not* suppressed — because the scan stops at the desired
label before it reaches the directive, refuting "suppressed regardless
of the desired label and the other current labels". -/
theorem action_ignore_forever_counterexample :
    action_set_page_label defaultTargetLabels apiOk (fun _ => none) 0
      ["lifecycle_phase=rotten", "lifecycle_ignore"] "lifecycle_phase=rotten" =
      .ok ⟨false, false, [], []⟩ := by
  rfl

/-- **C4** (corrected).  A bare `lifecycle_ignore` label (or one with an
empty value after `=`) drives `action_set_page_label` to the suppressed
no-change outcome whatever the desired label and the other labels are,
*provided* the desired label does not occur earlier in the scan order
(an earlier exact match ends the scan not-suppressed first), and every
deprecated label on the page is still removed (assuming those removals,
which the code does not guard, succeed). -/
theorem action_ignore_forever (tl : TargetLabels) (api : ApiBehavior)
    (pd : String → Option Int) (now : Int) (desired : String)
    (pre post : List String) (dir : String)
    (hdir : dir = "lifecycle_ignore" ∨ dir = "lifecycle_ignore=")
    (hpre : desired ∉ pre)
    (hdep : ∀ l ∈ pre ++ dir :: post, l ∈ deprecated_labels →
      api.removeFails l = false) :
    ∃ r, action_set_page_label tl api pd now (pre ++ dir :: post) desired =
        .ok r ∧
      r.changed = false ∧ r.suppressed = true ∧
      ∀ l ∈ pre ++ dir :: post, l ∈ deprecated_labels → l ∈ r.removed := by
  have hb : ignoreDirectiveBreaks pd now dir = true := by
    rcases hdir with h | h <;> subst h <;> rfl
  exact action_suppress_of_breaks tl api pd now desired dir pre post hb hpre hdep

/-- **C4 witness**: labels `["fresh", "lifecycle_ignore"]`, desired
rotten — suppressed, with the deprecated `"fresh"` still removed. -/
theorem action_ignore_forever_witness :
    ∃ r, action_set_page_label defaultTargetLabels apiOk (fun _ => none) 0
        ["fresh", "lifecycle_ignore"] "lifecycle_phase=rotten" = .ok r ∧
      r.changed = false ∧ r.suppressed = true ∧
      ∀ l ∈ ["fresh", "lifecycle_ignore"], l ∈ deprecated_labels →
        l ∈ r.removed := by
  exact action_ignore_forever defaultTargetLabels apiOk (fun _ => none) 0
    "lifecycle_phase=rotten" ["fresh"] [] "lifecycle_ignore" (Or.inl rfl)
    (by decide) (by decide)

/-- **C5 counterexample**: a page carrying `lifecycle_ignore=29990101`
(a far-future date under `pdTest`) after the desired label reconciles to
`(False, False)` — not the suppressed outcome the claim promises for
every page carrying a future-dated directive: the scan stops at the
desired label first. -/
theorem action_ignore_until_counterexample :
    action_set_page_label defaultTargetLabels apiOk pdTest 1700000000000000
      ["lifecycle_phase=rotten", "lifecycle_ignore=29990101"]
      "lifecycle_phase=rotten" = .ok ⟨false, false, [], []⟩ := by
  rfl

/-- **C5** (corrected).  For a label `dir` carrying an ignore directive
with value `s1` (the text between the first and second `=`): if `s1`
parses to a date not in the past — `now ≤ d`, the code's test is
`not datetime.now() > parse(...)`, so this covers every strictly future
date and the `d == now` boundary — the page reconciles to the
suppressed no-change outcome *provided* the desired label does not
occur before `dir` (an earlier match ends the scan not-suppressed); if
`s1` parses to a past date, or does not parse at all, the directive is
ignored entirely — reconciliation is identical to a run without the
label (stated for a directive that is not itself a configured target or
desired label). -/
theorem action_ignore_until (tl : TargetLabels) (api : ApiBehavior)
    (pd : String → Option Int) (now : Int) (desired dir s1 : String)
    (hsw : startsWithTag dir = true)
    (hcnt : eqCount dir ≠ 0)
    (hs1 : (splitEqS dir).getD 1 "" = s1)
    (hs1ne : ¬ (s1 = "")) :
    (∀ (d : Int) (pre post : List String), pd s1 = some d → now ≤ d →
      desired ∉ pre →
      (∀ l ∈ pre ++ dir :: post, l ∈ deprecated_labels →
        api.removeFails l = false) →
      ∃ r, action_set_page_label tl api pd now (pre ++ dir :: post) desired =
          .ok r ∧
        r.changed = false ∧ r.suppressed = true) ∧
    (∀ (d : Int) (pre post : List String), pd s1 = some d → d < now →
      dir ∉ tl.list → ¬ (dir = desired) →
      action_set_page_label tl api pd now (pre ++ dir :: post) desired =
        action_set_page_label tl api pd now (pre ++ post) desired) ∧
    (∀ pre post : List String, pd s1 = none →
      dir ∉ tl.list → ¬ (dir = desired) →
      action_set_page_label tl api pd now (pre ++ dir :: post) desired =
        action_set_page_label tl api pd now (pre ++ post) desired) := by
  have hs1' : (splitEqS dir)[1]?.getD "" = s1 := by
    rw [← List.getD_eq_getElem?_getD]
    exact hs1
  refine ⟨?_, ?_, ?_⟩
  · intro d pre post hpd hfut hpre hdep
    have hne : ¬ (d < now) := not_lt.mpr hfut
    have hb : ignoreDirectiveBreaks pd now dir = true := by
      simp [ignoreDirectiveBreaks, hsw, hcnt, hs1', hs1ne, hpd, hne]
    obtain ⟨r, e1, e2, e3, _⟩ :=
      action_suppress_of_breaks tl api pd now desired dir pre post hb hpre hdep
    exact ⟨r, e1, e2, e3⟩
  · intro d pre post hpd hpast hund hdes
    have hb : ignoreDirectiveBreaks pd now dir = false := by
      simp [ignoreDirectiveBreaks, hsw, hcnt, hs1', hs1ne, hpd, hpast]
    exact action_skip tl api pd now desired dir hb hund hdes hsw pre post
  · intro pre post hpd hund hdes
    have hb : ignoreDirectiveBreaks pd now dir = false := by
      simp [ignoreDirectiveBreaks, hsw, hcnt, hs1', hs1ne, hpd]
    exact action_skip tl api pd now desired dir hb hund hdes hsw pre post

/-- **C5 witness**: under `pdTest` at a 2023-ish instant, a future-dated
directive alone suppresses; at the epoch instant itself an epoch-dated
directive (`d == now`, the boundary of the code's `not now > d` test)
also suppresses; a past-dated one and an unparsable one leave
reconciliation exactly as if the directive were absent. -/
theorem action_ignore_until_witness :
    (∃ r, action_set_page_label defaultTargetLabels apiOk pdTest
        1700000000000000 ["lifecycle_ignore=29990101"]
        "lifecycle_phase=rotten" = .ok r ∧
      r.changed = false ∧ r.suppressed = true) ∧
    (∃ r, action_set_page_label defaultTargetLabels apiOk pdTest 0
        ["lifecycle_ignore=19700101"] "lifecycle_phase=rotten" = .ok r ∧
      r.changed = false ∧ r.suppressed = true) ∧
    action_set_page_label defaultTargetLabels apiOk pdTest 1700000000000000
        ["fresh", "lifecycle_ignore=19700101"] "lifecycle_phase=rotten" =
      action_set_page_label defaultTargetLabels apiOk pdTest 1700000000000000
        ["fresh"] "lifecycle_phase=rotten" ∧
    action_set_page_label defaultTargetLabels apiOk pdTest 1700000000000000
        ["lifecycle_ignore=garbage"] "lifecycle_phase=rotten" =
      action_set_page_label defaultTargetLabels apiOk pdTest 1700000000000000
        [] "lifecycle_phase=rotten" := by
  refine ⟨?_, ?_, ?_, ?_⟩
  · exact (action_ignore_until defaultTargetLabels apiOk pdTest 1700000000000000
      "lifecycle_phase=rotten" "lifecycle_ignore=29990101" "29990101"
      (by decide) (by decide) (by decide) (by decide)).1
      64060588800000000 [] [] (by decide) (by decide) (by decide) (by decide)
  · exact (action_ignore_until defaultTargetLabels apiOk pdTest 0
      "lifecycle_phase=rotten" "lifecycle_ignore=19700101" "19700101"
      (by decide) (by decide) (by decide) (by decide)).1
      0 [] [] (by decide) (by decide) (by decide) (by decide)
  · exact (action_ignore_until defaultTargetLabels apiOk pdTest 1700000000000000
      "lifecycle_phase=rotten" "lifecycle_ignore=19700101" "19700101"
      (by decide) (by decide) (by decide) (by decide)).2.1
      0 ["fresh"] [] (by decide) (by decide) (by decide) (by decide)
  · exact (action_ignore_until defaultTargetLabels apiOk pdTest 1700000000000000
      "lifecycle_phase=rotten" "lifecycle_ignore=garbage" "garbage"
      (by decide) (by decide) (by decide) (by decide)).2.2
      [] [] (by decide) (by decide) (by decide)

/-- **C6 counterexample**: on a store whose `remove_page_label` raises,
reconciling a page that carries the deprecated label `"fresh"` does not
yield any no-op outcome — the error propagates out of
`action_set_page_label`, because the deprecated sweep (main.py lines
201-206) has no `try`/`except`. -/
theorem action_deprecated_error_propagates :
    action_set_page_label defaultTargetLabels apiRemFail (fun _ => none) 0
      ["fresh"] "lifecycle_phase=rotten" = .error () := by
  rfl

/-- **C6** (corrected).  Provided the unguarded deprecated-label removals
succeed, `action_set_page_label` never propagates a store error: failures
while removing an undesirable label or applying the desired label are
swallowed, and a failing `set_page_label` yields `changed = false` with
nothing added — when the scan had found labelling required, the outcome
is no-change / not-suppressed, indistinguishable from "nothing to do". -/
theorem action_swallows_mutation_errors (tl : TargetLabels) (api : ApiBehavior)
    (pd : String → Option Int) (now : Int) (labels : List String)
    (desired : String)
    (hdep : ∀ l ∈ labels, l ∈ deprecated_labels → api.removeFails l = false) :
    ∃ r, action_set_page_label tl api pd now labels desired = .ok r ∧
      (api.setFails desired = true →
        r.changed = false ∧ r.added = [] ∧
        ((scanLabels api pd now (tl.list.filter fun x => x != desired)
            desired labels).1 = ScanResult.done → r.suppressed = false)) := by
  simp only [action_set_page_label, removeDeprecated_ok api labels hdep]
  cases hsc : (scanLabels api pd now (tl.list.filter fun x => x != desired)
      desired labels).1 with
  | suppress =>
    exact ⟨_, rfl, fun _ => ⟨rfl, rfl, fun hdone => by simp at hdone⟩⟩
  | found =>
    exact ⟨_, rfl, fun _ => ⟨rfl, rfl, fun _ => rfl⟩⟩
  | done =>
    by_cases hset : api.setFails desired
    · simp only [hset, if_true]
      exact ⟨_, rfl, fun _ => ⟨rfl, rfl, fun _ => rfl⟩⟩
    · simp only [hset, Bool.false_eq_true, if_false]
      exact ⟨_, rfl, fun hcontra => absurd hcontra (by simp [hset])⟩

/-- **C6 witness**: an unlabelled page on a store whose `set_page_label`
always raises. -/
theorem action_swallows_mutation_errors_witness :
    ∃ r, action_set_page_label defaultTargetLabels apiSetFail (fun _ => none) 0
        [] "lifecycle_phase=rotten" = .ok r ∧
      (apiSetFail.setFails "lifecycle_phase=rotten" = true →
        r.changed = false ∧ r.added = [] ∧
        ((scanLabels apiSetFail (fun _ => none) 0
            (defaultTargetLabels.list.filter fun x =>
              x != "lifecycle_phase=rotten")
            "lifecycle_phase=rotten" []).1 = ScanResult.done →
          r.suppressed = false)) := by
  exact action_swallows_mutation_errors defaultTargetLabels apiSetFail
    (fun _ => none) 0 [] "lifecycle_phase=rotten" (by simp)

/-- **C7 counterexample**: a page whose label set contains exactly the
desired phase label (and no deprecated or undesirable labels) but also a
bare ignore directive returns `(False, True)` — no-change but
*suppressed*, not the claimed no-change / not-suppressed outcome. -/
theorem action_idempotent_counterexample :
    action_set_page_label defaultTargetLabels apiOk (fun _ => none) 0
      ["lifecycle_ignore", "lifecycle_phase=fresh"] "lifecycle_phase=fresh" =
      .ok ⟨false, true, [], []⟩ := by
  rfl

/-- **C7** (corrected).  Reconciliation is idempotent: on a page carrying
the desired label, no undesirable label, and — beyond what the claim
said — no label starting with the ignore tag (such a label can flip the
outcome to suppressed), the outcome is no-change / not-suppressed, the
only mutations are the unconditional removals of whatever deprecated
labels are present (none, when none are present), and nothing is
added. -/
theorem action_idempotent (tl : TargetLabels) (api : ApiBehavior)
    (pd : String → Option Int) (now : Int) (labels : List String)
    (desired : String)
    (hmem : desired ∈ labels)
    (hphase : ∀ l ∈ labels, l ∈ tl.list → l = desired)
    (hign : ∀ l ∈ labels, startsWithTag l = false)
    (hdep : ∀ l ∈ labels, l ∈ deprecated_labels → api.removeFails l = false) :
    action_set_page_label tl api pd now labels desired =
      .ok ⟨false, false, labels.filter fun l => l ∈ deprecated_labels, []⟩ := by
  have hund : ∀ l ∈ labels, l ∉ tl.list.filter (fun x => x != desired) := by
    intro l hl hmem'
    have hin := List.mem_of_mem_filter hmem'
    have hne := List.of_mem_filter hmem'
    exact absurd (hphase l hl hin) (by simpa using hne)
  have hsc := scan_found api pd now _ desired labels hmem hign hund
  simp only [action_set_page_label, removeDeprecated_ok api labels hdep, hsc]
  simp

/-- **C7 witness**: desired rotten already present beside the deprecated
`"fresh"`: outcome no-change / not-suppressed, only `"fresh"` removed. -/
theorem action_idempotent_witness :
    action_set_page_label defaultTargetLabels apiOk (fun _ => none) 0
      ["fresh", "lifecycle_phase=rotten"] "lifecycle_phase=rotten" =
      .ok ⟨false, false, ["fresh"], []⟩ := by
  exact action_idempotent defaultTargetLabels apiOk (fun _ => none) 0
    ["fresh", "lifecycle_phase=rotten"] "lifecycle_phase=rotten"
    (by decide) (by decide) (by decide) (by decide)

/-- **C8** (confirmed).  On the same snapshot, a read-only run returns
exactly the pure classification tallies with an *empty* mutation trace
(no label removal or addition, no page update, no file attachment), and
any non-read-only run that completes returns those same tallies. -/
theorem manage_readonly_same_tallies (tl : TargetLabels) (api : ApiBehavior)
    (pd : String → Option Int) (now : Int) (rd sd : Nat) (up : Bool)
    (pid : String) (pages : List PageSnapshot) :
    manage_pages_in_space tl api pd now ⟨rd, sd, true, up, pid⟩ pages =
      .ok (phaseTallies tl now rd sd pages, []) ∧
    ∀ t muts,
      manage_pages_in_space tl api pd now ⟨rd, sd, false, up, pid⟩ pages =
        .ok (t, muts) →
      t = phaseTallies tl now rd sd pages := by
  constructor
  · rfl
  · intro t muts h
    exact manage_ok_tallies tl api pd now ⟨rd, sd, false, up, pid⟩ pages t muts h

/-- **C8 witness**: one freshly-edited unlabelled page; the read-only run
returns tally (1,0,0,1) and no mutations, while the non-read-only run
(which applies the fresh label) reports the same tally. -/
theorem manage_readonly_same_tallies_witness :
    manage_pages_in_space defaultTargetLabels apiOk (fun _ => none) 0
        ⟨180, 90, true, false, "42"⟩ [⟨"1", 0, []⟩] =
      .ok (phaseTallies defaultTargetLabels 0 180 90 [⟨"1", 0, []⟩], []) ∧
    (⟨1, 0, 0, 1⟩ : Tallies) =
      phaseTallies defaultTargetLabels 0 180 90 [⟨"1", 0, []⟩] := by
  refine ⟨(manage_readonly_same_tallies defaultTargetLabels apiOk (fun _ => none)
    0 180 90 false "42" [⟨"1", 0, []⟩]).1, ?_⟩
  exact (manage_readonly_same_tallies defaultTargetLabels apiOk (fun _ => none)
    0 180 90 false "42" [⟨"1", 0, []⟩]).2 ⟨1, 0, 0, 1⟩
    [Mutation.addLabel "1" "lifecycle_phase=fresh"] rfl

/-- **C9** (confirmed).  With pairwise-distinct target labels, the
orchestrator's rotten/stale/fresh buckets partition the classified
pages: the reported total equals the number of classified pages and
equals the sum of the three per-phase counts, and each page's computed
state matches exactly one of the three bucket predicates. -/
theorem manage_partition (tl : TargetLabels) (api : ApiBehavior)
    (pd : String → Option Int) (now : Int) (args : Args)
    (pages : List PageSnapshot) (t : Tallies) (muts : List Mutation)
    (h1 : ¬ (tl.fresh = tl.stale)) (h2 : ¬ (tl.fresh = tl.rotten))
    (h3 : ¬ (tl.stale = tl.rotten))
    (hm : manage_pages_in_space tl api pd now args pages = .ok (t, muts)) :
    t.total = pages.length ∧ t.total = t.fresh + t.stale + t.rotten ∧
    ∀ p ∈ pages,
      ((if discover_page_state tl now p.last_update args.rotten args.stale =
            tl.rotten then 1 else 0) +
       (if discover_page_state tl now p.last_update args.rotten args.stale =
            tl.stale then 1 else 0) +
       (if discover_page_state tl now p.last_update args.rotten args.stale =
            tl.fresh then 1 else 0) : Nat) = 1 := by
  have ht := manage_ok_tallies tl api pd now args pages t muts hm
  subst ht
  refine ⟨?_, rfl, ?_⟩
  · show (phaseTallies tl now args.rotten args.stale pages).total = pages.length
    simp only [phaseTallies, List.length_map]
    have key := three_filter_length
      (fun x : PageSnapshot × String => x.2 == tl.fresh)
      (fun x : PageSnapshot × String => x.2 == tl.stale)
      (fun x : PageSnapshot × String => x.2 == tl.rotten)
      (pages.map fun p =>
        (p, discover_page_state tl now p.last_update args.rotten args.stale))
      ?_
    · rw [key, List.length_map]
    · intro a ha
      obtain ⟨p, _, rfl⟩ := List.mem_map.mp ha
      rcases discover_page_state_mem tl now p.last_update args.rotten args.stale
        with h | h | h <;>
        simp [h, beq_iff_eq, h1, h2, h3, Ne.symm h1, Ne.symm h2, Ne.symm h3]
  · intro p _
    rcases discover_page_state_mem tl now p.last_update args.rotten args.stale
      with h | h | h <;>
      simp [h, h1, h2, h3, Ne.symm h1, Ne.symm h2, Ne.symm h3]

/-- **C9 witness**: one fresh page under the (distinct) default labels:
total 1 = 1 page, 1 = 1 + 0 + 0, and its state matches exactly one
bucket predicate. -/
theorem manage_partition_witness :
    (⟨1, 0, 0, 1⟩ : Tallies).total = [(⟨"1", 0, []⟩ : PageSnapshot)].length ∧
    (⟨1, 0, 0, 1⟩ : Tallies).total = 1 + 0 + 0 ∧
    ∀ p ∈ [(⟨"1", 0, []⟩ : PageSnapshot)],
      ((if discover_page_state defaultTargetLabels 0 p.last_update 180 90 =
            defaultTargetLabels.rotten then 1 else 0) +
       (if discover_page_state defaultTargetLabels 0 p.last_update 180 90 =
            defaultTargetLabels.stale then 1 else 0) +
       (if discover_page_state defaultTargetLabels 0 p.last_update 180 90 =
            defaultTargetLabels.fresh then 1 else 0) : Nat) = 1 := by
  exact manage_partition defaultTargetLabels apiOk (fun _ => none) 0
    ⟨180, 90, true, false, "42"⟩ [⟨"1", 0, []⟩] ⟨1, 0, 0, 1⟩ []
    (by decide) (by decide) (by decide) rfl

/-- **C10 counterexample**: a page whose labels are the desired label
followed by `"lifecycle_ignored"` reconciles to `(False, False)`, not
suppressed — the prefix-matched directive is never reached, refuting the
claim's unconditional "suppresses reconciliation of that page". -/
theorem action_tag_match_counterexample :
    action_set_page_label defaultTargetLabels apiOk (fun _ => none) 0
      ["lifecycle_phase=rotten", "lifecycle_ignored"] "lifecycle_phase=rotten" =
      .ok ⟨false, false, [], []⟩ := by
  rfl

/-- **C10** (corrected).  The ignore test is a bare prefix match: *any*
label starting with `lifecycle_ignore` and containing no `=` — e.g.
`lifecycle_ignored` or `lifecycle_ignore_me` — acts as an ignore-forever
directive and suppresses reconciliation, *provided* the desired label
does not occur earlier in the scan order (and the unguarded deprecated
removals succeed). -/
theorem action_tag_match (tl : TargetLabels) (api : ApiBehavior)
    (pd : String → Option Int) (now : Int) (desired : String)
    (pre post : List String) (dir : String)
    (hsw : startsWithTag dir = true) (hcnt : eqCount dir = 0)
    (hpre : desired ∉ pre)
    (hdep : ∀ l ∈ pre ++ dir :: post, l ∈ deprecated_labels →
      api.removeFails l = false) :
    ∃ r, action_set_page_label tl api pd now (pre ++ dir :: post) desired =
        .ok r ∧
      r.changed = false ∧ r.suppressed = true := by
  have hb : ignoreDirectiveBreaks pd now dir = true := by
    simp [ignoreDirectiveBreaks, hsw, hcnt]
  obtain ⟨r, e1, e2, e3, _⟩ :=
    action_suppress_of_breaks tl api pd now desired dir pre post hb hpre hdep
  exact ⟨r, e1, e2, e3⟩

/-- **C10 witness**: the sole label `"lifecycle_ignored"` suppresses
reconciliation toward the rotten label. -/
theorem action_tag_match_witness :
    ∃ r, action_set_page_label defaultTargetLabels apiOk (fun _ => none) 0
        ["lifecycle_ignored"] "lifecycle_phase=rotten" = .ok r ∧
      r.changed = false ∧ r.suppressed = true := by
  exact action_tag_match defaultTargetLabels apiOk (fun _ => none) 0
    "lifecycle_phase=rotten" [] [] "lifecycle_ignored"
    (by decide) (by decide) (by decide) (by decide)
